import Mathlib

/-!
Verification of the training/evaluation coordination core of
`change-gan/change-gan/main.py` (ChangeGAN repository).

The development shallowly embeds the relevant parts of `main.py`:

* `CheckpointState`, `updateLatestCheckpoint` — `EvaluationRunHook._update_latest_checkpoint`
  (lines 62–71): checkpoint-lock-guarded detection of a new latest checkpoint.
* `after_run`, `endHook` — `EvaluationRunHook.after_run` (lines 49–60) and
  `EvaluationRunHook.end` (lines 73–78), modelled as functions that also emit the
  sequence of lock/evaluation events the Python code performs, so ordering and
  release-on-error facts are statable.
* `runEvalLoop`, `runEvalPass` — the evaluation loop of
  `EvaluationRunHook._run_eval` (lines 82–109), with the Python local variable
  `summaries` embedded as an `Option` (unbound → `none`, so its post-loop use is a
  `NameError` when the loop body never executed).
* `dispatch`, `runHooks` — `dispatch` (lines 203–241) and the hook attachment in
  `run` (lines 140–160).
* `HookStep` — a small-step concurrent semantics of the two hook callbacks
  (background threads sharing the single `_eval_lock`), to prove mutual exclusion
  of evaluation passes.
* `parseEvalFrequency`, `py2Gt` — the argparse handling of `--eval-frequency`
  (lines 257–259), which lacks `type=int`, and Python 2 mixed-type comparison.
-/

/-- In-memory bookkeeping of `EvaluationRunHook`: the fields
`_latest_checkpoint` (a checkpoint path, `None` initially — `Option String`) and
`_checkpoints_since_eval` (initialised to 0, only incremented or reset). -/
structure CheckpointState where
  latest_checkpoint : Option String
  checkpoints_since_eval : Nat
deriving Repr, DecidableEq

/-- Initial state set in `EvaluationRunHook.__init__` (lines 27–28). -/
def CheckpointState.initial : CheckpointState :=
  { latest_checkpoint := none, checkpoints_since_eval := 0 }

/-- `EvaluationRunHook._update_latest_checkpoint` (lines 62–71).

`cpLockFree` is the outcome of `self._checkpoint_lock.acquire(False)` (a
non-blocking acquire: `true` when the lock was free and is taken); `latest` is
the value returned by `tf.train.latest_checkpoint(self._checkpoint_dir)`
(`None` when no checkpoint exists).  When the lock is acquired and
`not latest == self._latest_checkpoint`, the counter is incremented and the
stored identifier replaced; otherwise the state is returned unchanged.  The
Python `finally` releases the lock on every path; in this pure embedding the
function's only effect is the returned state. -/
def updateLatestCheckpoint (cpLockFree : Bool) (latest : Option String)
    (s : CheckpointState) : CheckpointState :=
  if cpLockFree then
    if ¬ (latest = s.latest_checkpoint) then
      { latest_checkpoint := latest,
        checkpoints_since_eval := s.checkpoints_since_eval + 1 }
    else s
  else s

/-- Observable events of the hook callbacks, in program order:
the call to `_update_latest_checkpoint`, the non-blocking
`_eval_lock.acquire(False)` with its outcome, the blocking `with self._eval_lock`
acquire, the counter reset `self._checkpoints_since_eval = 0`, the call to
`self._run_eval()`, and `self._eval_lock.release()` / `with`-exit. -/
inductive HookEvent
  | updateCall
  | tryAcquireEval (ok : Bool)
  | acquireEvalBlocking
  | resetCounter
  | runEvalCall
  | releaseEval
deriving Repr, DecidableEq

/-- `EvaluationRunHook.after_run` (lines 49–60).

It first calls `_update_latest_checkpoint()`, then attempts
`self._eval_lock.acquire(False)`; only when that succeeds (`evalLockFree`) and
`self._checkpoints_since_eval > self._eval_every` does it reset the counter to 0
and call `self._run_eval()`.  The `try/finally` releases the eval lock on every
path, including when `_run_eval` raises (`evalRaises`), in which case the
exception propagates after the release (the `Except.error` result).
Returns the emitted event list, the final `CheckpointState`, and the
normal/exceptional outcome. -/
def after_run (cpLockFree evalLockFree : Bool) (latest : Option String)
    (evalEvery : Nat) (evalRaises : Bool) (s : CheckpointState) :
    List HookEvent × CheckpointState × Except String Unit :=
  let s1 := updateLatestCheckpoint cpLockFree latest s
  if evalLockFree then
    if s1.checkpoints_since_eval > evalEvery then
      let s2 := { s1 with checkpoints_since_eval := 0 }
      if evalRaises then
        ([.updateCall, .tryAcquireEval true, .resetCounter, .runEvalCall,
          .releaseEval], s2, .error "EvaluationFailure")
      else
        ([.updateCall, .tryAcquireEval true, .resetCounter, .runEvalCall,
          .releaseEval], s2, .ok ())
    else
      ([.updateCall, .tryAcquireEval true, .releaseEval], s1, .ok ())
  else
    ([.updateCall, .tryAcquireEval false], s1, .ok ())

/-- `EvaluationRunHook.end` (lines 73–78): call `_update_latest_checkpoint()`,
then `with self._eval_lock:` (a blocking acquire) and run `self._run_eval()`
unconditionally — no counter check and no counter reset. -/
def endHook (cpLockFree : Bool) (latest : Option String)
    (s : CheckpointState) : List HookEvent × CheckpointState :=
  let s1 := updateLatestCheckpoint cpLockFree latest s
  ([.updateCall, .acquireEvalBlocking, .runEvalCall, .releaseEval], s1)

/-- C2: each completed `_update_latest_checkpoint` call increments
`checkpoints_since_eval` by exactly 1 and stores the new identifier when the
observed latest checkpoint differs from the stored one; it leaves the state
unchanged when the identifier is unchanged; and a call that fails the
non-blocking checkpoint-lock acquire has no effect.  The embedding's return
type (only a `CheckpointState`) reflects that the Python method mutates nothing
but the two tracked fields. -/
theorem update_latest_checkpoint_spec (cpLockFree : Bool)
    (latest : Option String) (s : CheckpointState) :
    (cpLockFree = true → latest ≠ s.latest_checkpoint →
      updateLatestCheckpoint cpLockFree latest s =
        { latest_checkpoint := latest,
          checkpoints_since_eval := s.checkpoints_since_eval + 1 }) ∧
    (cpLockFree = true → latest = s.latest_checkpoint →
      updateLatestCheckpoint cpLockFree latest s = s) ∧
    (cpLockFree = false → updateLatestCheckpoint cpLockFree latest s = s) := by
  refine ⟨?_, ?_, ?_⟩ <;> intro h1 <;>
    simp [updateLatestCheckpoint, h1]
  · intro h2; simp [h2]
  · intro h2; simp [h2]

/-- Concrete instance of `update_latest_checkpoint_spec`: observing a new
checkpoint `"ckpt-1"` from the initial state increments the counter to 1 and
stores the identifier. -/
theorem update_latest_checkpoint_spec_witness :
    updateLatestCheckpoint true (some "ckpt-1") CheckpointState.initial =
      { latest_checkpoint := some "ckpt-1", checkpoints_since_eval := 1 } :=
  (update_latest_checkpoint_spec true (some "ckpt-1")
    CheckpointState.initial).1 rfl (by simp [CheckpointState.initial])

/-- C1: `after_run` calls the checkpoint-state update first; evaluation runs
exactly when the non-blocking eval-lock acquire succeeds AND the (updated)
counter is strictly greater than `eval_frequency` — equality does not trigger —
and when it runs, the counter was reset to 0 before the `_run_eval` call; when
the lock was acquired, the release is the last event on every path out,
including when `_run_eval` raises. -/
theorem after_run_spec (cpLockFree evalLockFree : Bool) (latest : Option String)
    (evalEvery : Nat) (evalRaises : Bool) (s : CheckpointState) :
    ((after_run cpLockFree evalLockFree latest evalEvery evalRaises s).1.head? =
      some HookEvent.updateCall) ∧
    (HookEvent.runEvalCall ∈
        (after_run cpLockFree evalLockFree latest evalEvery evalRaises s).1 ↔
      (evalLockFree = true ∧
        (updateLatestCheckpoint cpLockFree latest s).checkpoints_since_eval >
          evalEvery)) ∧
    ((updateLatestCheckpoint cpLockFree latest s).checkpoints_since_eval =
        evalEvery →
      HookEvent.runEvalCall ∉
        (after_run cpLockFree evalLockFree latest evalEvery evalRaises s).1) ∧
    (HookEvent.runEvalCall ∈
        (after_run cpLockFree evalLockFree latest evalEvery evalRaises s).1 →
      ((after_run cpLockFree evalLockFree latest evalEvery
            evalRaises s).2.1.checkpoints_since_eval = 0 ∧
        (after_run cpLockFree evalLockFree latest evalEvery evalRaises s).1 =
          [HookEvent.updateCall, HookEvent.tryAcquireEval true,
            HookEvent.resetCounter, HookEvent.runEvalCall,
            HookEvent.releaseEval])) ∧
    (evalLockFree = true →
      (after_run cpLockFree evalLockFree latest evalEvery
          evalRaises s).1.getLast? = some HookEvent.releaseEval) := by
  cases evalLockFree <;> cases evalRaises <;>
    by_cases hgt :
      (updateLatestCheckpoint cpLockFree latest s).checkpoints_since_eval >
        evalEvery <;>
    simp [after_run, hgt] <;> omega

/-- Concrete instance of `after_run_spec`: with both locks free, a fresh
checkpoint observed, counter 2 and `eval_frequency` 1 (so 3 > 1 after the
update), the evaluation runs, the counter is reset, and the lock is released
last even though `_run_eval` raises. -/
theorem after_run_spec_witness :
    (after_run true true (some "ckpt-3") 1 true
        { latest_checkpoint := some "ckpt-2", checkpoints_since_eval := 2 }).1 =
      [HookEvent.updateCall, HookEvent.tryAcquireEval true,
        HookEvent.resetCounter, HookEvent.runEvalCall, HookEvent.releaseEval] :=
  ((after_run_spec true true (some "ckpt-3") 1 true
      { latest_checkpoint := some "ckpt-2",
        checkpoints_since_eval := 2 }).2.2.2.1 (by decide)).2

/-- C3: for every checkpoint state at training end (including a counter of 0),
`EvaluationRunHook.end` first calls the checkpoint-state update, then performs
a blocking acquire of the eval lock and invokes `_run_eval` exactly once,
unconditionally — its event trace is always
update, blocking-acquire, run, release. -/
theorem end_hook_spec (cpLockFree : Bool) (latest : Option String)
    (s : CheckpointState) :
    (endHook cpLockFree latest s).1 =
      [HookEvent.updateCall, HookEvent.acquireEvalBlocking,
        HookEvent.runEvalCall, HookEvent.releaseEval] ∧
    (endHook cpLockFree latest s).1.count HookEvent.runEvalCall = 1 ∧
    (endHook cpLockFree latest s).2 = updateLatestCheckpoint cpLockFree latest s := by
  refine ⟨rfl, ?_, rfl⟩
  rfl

/-- How an evaluation loop instance finished: `budget` when the
`eval_step < self._eval_steps` bound stopped it, `exhausted` when an
`OutOfRangeError`/`CancelledError` was raised inside `session.run` and caught
by `coord.stop_on_exception()` (a clean stop, per the coordinator's
`clean_stop_exception_types`, not an error). -/
inductive TermKind
  | budget
  | exhausted
deriving Repr, DecidableEq

/-- The loop guard `self._eval_steps is None or eval_step < self._eval_steps`
of `_run_eval` (lines 99–100); `eval_steps` is a Python int option. -/
def budgetAllows (evalSteps : Option Int) (step : Nat) : Bool :=
  match evalSteps with
  | none => true
  | some n => decide ((step : Int) < n)

/-- The `while` loop of `EvaluationRunHook._run_eval` (lines 97–105), embedded
with fuel.  `exhaustAt = some k` means the input pipeline raises
`OutOfRangeError`/`CancelledError` inside the `session.run` call of iteration
`k` (0-based), so that iteration does not complete and does not rebind the
Python local `summaries`; `acc` carries the current value of `summaries`
(`none` while still unbound).  Returns `none` if fuel ran out, otherwise the
number of completed iterations, how the loop stopped, and the final
`summaries` binding. -/
def runEvalLoop (evalSteps : Option Int) (exhaustAt : Option Nat) :
    Nat → Nat → Option Nat → Option (Nat × TermKind × Option Nat)
  | 0, _, _ => none
  | fuel + 1, step, acc =>
    if budgetAllows evalSteps step then
      if exhaustAt = some step then some (step, TermKind.exhausted, acc)
      else runEvalLoop evalSteps exhaustAt fuel (step + 1) (some step)
    else some (step, TermKind.budget, acc)

/-- Iteration count and stop kind of a `_run_eval` loop started at
`eval_step = 0` with `summaries` unbound. -/
def runEvalCount (evalSteps : Option Int) (exhaustAt : Option Nat)
    (fuel : Nat) : Option (Nat × TermKind) :=
  (runEvalLoop evalSteps exhaustAt fuel 0 none).map (fun r => (r.1, r.2.1))

/-- `_run_eval` including the post-loop lines 107–109: after the loop (on both
the budget exit and the clean exhaustion stop, since `stop_on_exception`
suppresses the clean exception) the code evaluates
`self._file_writer.add_summary(summaries, ...)`.  If the loop body never
executed, the local `summaries` was never bound, so that access raises a
`NameError`; otherwise the last bound value is written. -/
def runEvalPass (evalSteps : Option Int) (exhaustAt : Option Nat)
    (fuel : Nat) : Option (Nat × TermKind × Except String Nat) :=
  match runEvalLoop evalSteps exhaustAt fuel 0 none with
  | none => none
  | some (completed, tk, acc) =>
    some (completed, tk,
      match acc with
      | none => Except.error "NameError: summaries"
      | some v => Except.ok v)

lemma runEvalLoop_budget_aux (n : Nat) :
    ∀ fuel step acc, step ≤ n → n - step < fuel →
    ∃ acc', runEvalLoop (some (n : Int)) none fuel step acc =
      some (n, TermKind.budget, acc') := by
  intro fuel
  induction fuel with
  | zero => intro step acc h1 h2; omega
  | succ f ih =>
    intro step acc h1 h2
    by_cases hlt : step < n
    · have hba : budgetAllows (some (n : Int)) step = true := by
        simp only [budgetAllows, decide_eq_true_eq]
        exact_mod_cast hlt
      obtain ⟨acc', hacc⟩ := ih (step + 1) (some step) (by omega) (by omega)
      exact ⟨acc', by simp [runEvalLoop, hba, hacc]⟩
    · have hstep : step = n := by omega
      subst hstep
      have hba : budgetAllows (some (step : Int)) step = false := by
        simp [budgetAllows]
      exact ⟨acc, by simp [runEvalLoop, hba]⟩

lemma runEvalLoop_exhausted_aux (evalSteps : Option Int) (k : Nat)
    (hcond : ∀ s : Nat, s ≤ k → budgetAllows evalSteps s = true) :
    ∀ fuel step acc, step ≤ k → k - step < fuel →
    ∃ acc', runEvalLoop evalSteps (some k) fuel step acc =
      some (k, TermKind.exhausted, acc') := by
  intro fuel
  induction fuel with
  | zero => intro step acc h1 h2; omega
  | succ f ih =>
    intro step acc h1 h2
    have hba := hcond step h1
    by_cases hk : step = k
    · subst hk
      exact ⟨acc, by simp [runEvalLoop, hba]⟩
    · have hk2 : ¬ (k = step) := fun h => hk h.symm
      obtain ⟨acc', hacc⟩ := ih (step + 1) (some step) (by omega) (by omega)
      exact ⟨acc', by simp [runEvalLoop, hba, hk2, hacc]⟩

/-- C7: with `eval_steps = N` and an input pipeline that never signals
exhaustion or cancellation, the `_run_eval` loop performs exactly `N`
iterations and stops on the step budget; if exhaustion/cancellation is raised
at iteration `k < N`, the loop stops after `k` completed iterations with a
clean `exhausted` stop (a normal return, not an error); with `eval_steps`
unspecified (`None`) the loop runs until the exhaustion/cancellation signal.
`fuel` bounds the embedded recursion and any value large enough exhibits the
same result. -/
theorem run_eval_loop_spec (n k fuel : Nat) :
    (n + 1 ≤ fuel →
      runEvalCount (some (n : Int)) none fuel = some (n, TermKind.budget)) ∧
    (k < n → k + 1 ≤ fuel →
      runEvalCount (some (n : Int)) (some k) fuel =
        some (k, TermKind.exhausted)) ∧
    (k + 1 ≤ fuel →
      runEvalCount none (some k) fuel = some (k, TermKind.exhausted)) := by
  refine ⟨?_, ?_, ?_⟩
  · intro hf
    obtain ⟨acc', h⟩ := runEvalLoop_budget_aux n fuel 0 none (by omega) (by omega)
    simp [runEvalCount, h]
  · intro hkn hf
    obtain ⟨acc', h⟩ := runEvalLoop_exhausted_aux (some (n : Int)) k
      (fun s hs => by
        simp only [budgetAllows, decide_eq_true_eq]
        exact_mod_cast (by omega : s < n))
      fuel 0 none (by omega) (by omega)
    simp [runEvalCount, h]
  · intro hf
    obtain ⟨acc', h⟩ := runEvalLoop_exhausted_aux none k (fun s hs => rfl)
      fuel 0 none (by omega) (by omega)
    simp [runEvalCount, h]

/-- Concrete instances of `run_eval_loop_spec`: an unbounded pipeline with
`eval_steps = 3` gives exactly 3 iterations; exhaustion at iteration 1 stops
cleanly after 1 iteration; with `eval_steps = None`, exhaustion at iteration 2
stops cleanly after 2 iterations. -/
theorem run_eval_loop_spec_witness :
    runEvalCount (some (3 : Int)) none 5 = some (3, TermKind.budget) ∧
    runEvalCount (some (3 : Int)) (some 1) 5 = some (1, TermKind.exhausted) ∧
    runEvalCount none (some 2) 5 = some (2, TermKind.exhausted) :=
  ⟨(run_eval_loop_spec 3 1 5).1 (by omega),
   (run_eval_loop_spec 3 1 5).2.1 (by omega) (by omega),
   (run_eval_loop_spec 3 2 5).2.2 (by omega)⟩

/-- C10: an evaluation pass that completes zero loop iterations — exhaustion or
cancellation raised before the first iteration (`exhaustAt = 0`), or
`eval_steps = 0` — never binds the Python local `summaries`, so the post-loop
`add_summary(summaries, ...)` at line 108 is an unbound-variable access: the
pass raises a `NameError` instead of flushing an empty summary. -/
theorem run_eval_pass_zero_iterations (evalSteps : Option Int)
    (exhaustAt : Option Nat) (fuel : Nat) :
    (1 ≤ fuel →
      (runEvalPass evalSteps (some 0) fuel).map (fun r => (r.1, r.2.2)) =
        some (0, Except.error "NameError: summaries")) ∧
    (1 ≤ fuel →
      runEvalPass (some (0 : Int)) exhaustAt fuel =
        some (0, TermKind.budget, Except.error "NameError: summaries")) := by
  constructor <;> intro hf <;>
    obtain ⟨f, rfl⟩ : ∃ f, fuel = f + 1 := ⟨fuel - 1, by omega⟩
  · by_cases hba : budgetAllows evalSteps 0 = true
    · simp [runEvalPass, runEvalLoop, hba]
    · simp [runEvalPass, runEvalLoop, hba]
  · have hba : budgetAllows (some (0 : Int)) 0 = false := by
      simp [budgetAllows]
    simp [runEvalPass, runEvalLoop, hba]

/-- Concrete instance of `run_eval_pass_zero_iterations`: `eval_steps = 0`
yields a `NameError`, not a written summary. -/
theorem run_eval_pass_zero_iterations_witness :
    runEvalPass (some (0 : Int)) none 1 =
      some (0, TermKind.budget, Except.error "NameError: summaries") :=
  (run_eval_pass_zero_iterations (some (0 : Int)) none 1).2 (by omega)

/-- The `task` sub-object of the parsed `TF_CONFIG` JSON: `type` and `index`
may each be absent (`tf_config_json.get('task', {}).get('type')` /
`.get('index')`, lines 219–220). -/
structure TaskInfo where
  type : Option String
  index : Option Int
deriving Repr, DecidableEq

/-- The parsed `TF_CONFIG` JSON object: an optional `cluster` mapping
role-name → address list and an optional `task` object (lines 216–220). -/
structure TFConfigJson where
  cluster : Option (List (String × List String))
  task : Option TaskInfo
deriving Repr, DecidableEq

/-- `tf_config_json.get('task', {}).get('type')` (line 219). -/
def jobNameOf (cfg : TFConfigJson) : Option String :=
  cfg.task.bind TaskInfo.type

/-- `tf_config_json.get('task', {}).get('index')` (line 220). -/
def taskIndexOf (cfg : TFConfigJson) : Option Int :=
  cfg.task.bind TaskInfo.index

/-- Modelled external call: `tf.train.ClusterSpec(cluster)` (line 226).  The
TensorFlow constructor raises a `TypeError` when `cluster` is `None` (it
requires a dict / `ClusterDef` / `ClusterSpec`); with a dict it succeeds.
This is library behaviour outside the repository, recorded here because
`dispatch` reaches this call with `cluster = None` when `TF_CONFIG` has a
complete `task` but no `cluster` key. -/
def clusterSpecOf (cluster : Option (List (String × List String))) :
    Except String (List (String × List String)) :=
  match cluster with
  | none => Except.error "TypeError: cluster must be a dict"
  | some m => Except.ok m

/-- Where `dispatch` (lines 203–241) hands off control:
`runCall target isChief` is an invocation of `run(target, is_chief, ...)`;
`psJoin` is `server.join()` (blocks forever); `silentNone` is the implicit
`return None` fall-through when `job_name` is none of `"ps"`, `"master"`,
`"worker"`. -/
inductive DispatchResult
  | runCall (target : String) (isChief : Bool)
  | psJoin
  | silentNone
deriving Repr, DecidableEq

/-- `dispatch` (lines 203–241).  `tfConfig = none` models `TF_CONFIG` absent or
empty (`if not tf_config`, line 213); otherwise the parsed JSON.
`serverTarget` stands for the external `server.target` string of the
`tf.train.Server` started at line 227.  The returned `Bool` records whether
that server was constructed before control left the function. -/
def dispatch (serverTarget : String) (tfConfig : Option TFConfigJson) :
    Except String (Bool × DispatchResult) :=
  match tfConfig with
  | none => Except.ok (false, DispatchResult.runCall "" true)
  | some cfg =>
    match jobNameOf cfg, taskIndexOf cfg with
    | none, _ => Except.ok (false, DispatchResult.runCall "" true)
    | some _, none => Except.ok (false, DispatchResult.runCall "" true)
    | some jn, some _ =>
      match clusterSpecOf cfg.cluster with
      | Except.error e => Except.error e
      | Except.ok _ =>
        if jn = "ps" then Except.ok (true, DispatchResult.psJoin)
        else if jn = "master" ∨ jn = "worker" then
          Except.ok (true, DispatchResult.runCall serverTarget (jn = "master"))
        else Except.ok (true, DispatchResult.silentNone)

/-- The hooks and evaluation-hook marker of `run` (lines 140–160). -/
inductive SessionHook
  | evaluationRunHook
deriving Repr, DecidableEq

/-- The hook list `run` passes to `MonitoredTrainingSession` (lines 140–160,
186): `[EvaluationRunHook(...)]` when `is_chief`, else `[]`. -/
def runHooks (isChief : Bool) : List SessionHook :=
  if isChief then [SessionHook.evaluationRunHook] else []

/-- C4 counterexample: with `TF_CONFIG` naming a complete cluster and a task of
role `"chief"` — a role outside `{"ps", "master", "worker"}` — `dispatch`
constructs the `tf.train.Server` (the `true` component: the server starts at
line 227, before any role check) and then falls through lines 237–241,
returning `None` silently with no configuration error (the result is
`Except.ok`, not `Except.error`).  This falsifies the claim that the
Dispatcher fails fast with a configuration error before any server starts. -/
theorem dispatch_unknown_role_counterexample :
    dispatch "grpc://host:2222"
        (some { cluster := some [("chief", ["host:2222"]), ("ps", ["host:2223"])],
                task := some { type := some "chief", index := some 0 } }) =
      Except.ok (true, DispatchResult.silentNone) := by
  rfl

/-- C4 amended: for every environment description whose task role-name is
present with a task index and a cluster topology but is none of `"ps"`,
`"master"`, `"worker"`, `dispatch` starts the server and then returns `None`
silently — no configuration error is raised and training is never invoked. -/
theorem dispatch_unknown_role_spec (serverTarget : String) (cfg : TFConfigJson)
    (jn : String) (i : Int) (m : List (String × List String))
    (hjn : jobNameOf cfg = some jn) (hidx : taskIndexOf cfg = some i)
    (hcl : cfg.cluster = some m)
    (h1 : jn ≠ "ps") (h2 : jn ≠ "master") (h3 : jn ≠ "worker") :
    dispatch serverTarget (some cfg) =
      Except.ok (true, DispatchResult.silentNone) := by
  simp [dispatch, hjn, hidx, hcl, clusterSpecOf, h1, h2, h3]

/-- Concrete instance of `dispatch_unknown_role_spec` at role `"evaluator"`. -/
theorem dispatch_unknown_role_spec_witness :
    dispatch "grpc://host:9999"
        (some { cluster := some [("evaluator", ["host:9999"])],
                task := some { type := some "evaluator", index := some 0 } }) =
      Except.ok (true, DispatchResult.silentNone) :=
  dispatch_unknown_role_spec "grpc://host:9999"
    { cluster := some [("evaluator", ["host:9999"])],
      task := some { type := some "evaluator", index := some 0 } }
    "evaluator" 0 [("evaluator", ["host:9999"])]
    rfl rfl rfl (by decide) (by decide) (by decide)

/-- C6 counterexample: when only the cluster topology is absent but
`task.type` and `task.index` are both present, `dispatch` does NOT fall back
to the single-process chief: the `job_name is None or task_index is None`
check at line 223 passes, and control reaches `tf.train.ClusterSpec(None)`
(line 226), which raises a `TypeError` — the result is neither
`run('', True, ...)` nor any in-process chief run. -/
theorem dispatch_cluster_absent_counterexample :
    dispatch "grpc://host:2222"
        (some { cluster := none,
                task := some { type := some "worker", index := some 0 } }) =
      Except.error "TypeError: cluster must be a dict" ∧
    dispatch "grpc://host:2222"
        (some { cluster := none,
                task := some { type := some "worker", index := some 0 } }) ≠
      Except.ok (false, DispatchResult.runCall "" true) ∧
    dispatch "grpc://host:2222"
        (some { cluster := none,
                task := some { type := some "worker", index := some 0 } }) ≠
      Except.ok (true, DispatchResult.runCall "" true) := by
  exact ⟨rfl, fun h => Except.noConfusion h, fun h => Except.noConfusion h⟩

/-- C6 amended: when the structured cluster-configuration value is absent
(`TF_CONFIG` unset or empty), or when the task role-name or task index is
missing, `dispatch` resolves to the single-process chief — `run('', True,
...)`, i.e. empty target, `is_chief = true`, no server started.  (When only
the `cluster` key is absent but `task.type` and `task.index` are present, the
code instead proceeds to cluster-spec construction, which fails in the
external library — see the counterexample.) -/
theorem dispatch_local_chief_spec (serverTarget : String)
    (tfConfig : Option TFConfigJson)
    (h : tfConfig = none ∨ ∃ cfg, tfConfig = some cfg ∧
      (jobNameOf cfg = none ∨ taskIndexOf cfg = none)) :
    dispatch serverTarget tfConfig =
      Except.ok (false, DispatchResult.runCall "" true) := by
  rcases h with rfl | ⟨cfg, rfl, hmiss⟩
  · rfl
  · rcases hjn : jobNameOf cfg with _ | jn
    · simp [dispatch, hjn]
    · rcases hidx : taskIndexOf cfg with _ | i
      · simp [dispatch, hjn, hidx]
      · rw [hjn, hidx] at hmiss
        simp at hmiss

/-- Concrete instance of `dispatch_local_chief_spec`: `TF_CONFIG` absent gives
the in-process chief run with empty target. -/
theorem dispatch_local_chief_spec_witness :
    dispatch "grpc://host:2222" none =
      Except.ok (false, DispatchResult.runCall "" true) :=
  dispatch_local_chief_spec "grpc://host:2222" none (Or.inl rfl)

/-- C8: the Evaluation Hook is attached iff `is_chief`.  `runHooks` contains
the hook exactly when `is_chief = true`; a `TF_CONFIG` task of type
`"worker"` makes `dispatch` call `run` with `is_chief = false` (empty hook
list) and one of type `"master"` with `is_chief = true` (hook list is exactly
`[EvaluationRunHook]`). -/
theorem eval_hook_attachment_spec (serverTarget : String) (cfg : TFConfigJson)
    (isChief : Bool) (i : Int) (m : List (String × List String)) :
    (SessionHook.evaluationRunHook ∈ runHooks isChief ↔ isChief = true) ∧
    runHooks false = [] ∧
    runHooks true = [SessionHook.evaluationRunHook] ∧
    (jobNameOf cfg = some "worker" → taskIndexOf cfg = some i →
      cfg.cluster = some m →
      dispatch serverTarget (some cfg) =
        Except.ok (true, DispatchResult.runCall serverTarget false)) ∧
    (jobNameOf cfg = some "master" → taskIndexOf cfg = some i →
      cfg.cluster = some m →
      dispatch serverTarget (some cfg) =
        Except.ok (true, DispatchResult.runCall serverTarget true)) := by
  refine ⟨?_, rfl, rfl, ?_, ?_⟩
  · cases isChief <;> simp [runHooks]
  · intro hjn hidx hcl
    simp [dispatch, hjn, hidx, hcl, clusterSpecOf]
  · intro hjn hidx hcl
    simp [dispatch, hjn, hidx, hcl, clusterSpecOf]

/-- Concrete instance of `eval_hook_attachment_spec`: a worker task of index 2
resolves to `is_chief = false` and an empty hook list; the hook membership
iff instantiated at `false` confirms the hook is not attached. -/
theorem eval_hook_attachment_spec_witness :
    dispatch "grpc://w:1"
        (some { cluster := some [("master", ["m:1"]), ("worker", ["w:1", "w:2", "w:3"]),
                  ("ps", ["p:1"])],
                task := some { type := some "worker", index := some 2 } }) =
      Except.ok (true, DispatchResult.runCall "grpc://w:1" false) ∧
    runHooks false = [] :=
  ⟨(eval_hook_attachment_spec "grpc://w:1"
      { cluster := some [("master", ["m:1"]), ("worker", ["w:1", "w:2", "w:3"]),
          ("ps", ["p:1"])],
        task := some { type := some "worker", index := some 2 } }
      false 2
      [("master", ["m:1"]), ("worker", ["w:1", "w:2", "w:3"]), ("ps", ["p:1"])]).2.2.2.1
      rfl rfl rfl,
   (eval_hook_attachment_spec "grpc://w:1"
      { cluster := some [("master", ["m:1"]), ("worker", ["w:1", "w:2", "w:3"]),
          ("ps", ["p:1"])],
        task := some { type := some "worker", index := some 2 } }
      false 2
      [("master", ["m:1"]), ("worker", ["w:1", "w:2", "w:3"]), ("ps", ["p:1"])]).2.1⟩

/-- A Python runtime value relevant to the `--eval-frequency` flag: an int or
a str. -/
inductive PyVal
  | pyInt (n : Int)
  | pyStr (s : String)
deriving Repr, DecidableEq

/-- The argparse declaration of `--eval-frequency` (lines 257–259):
`parser.add_argument('--eval-frequency', default=1, help=...)` — `default=1`
but NO `type=int` (unlike `--eval-steps`, `--train-batch-size`, etc.).
argparse therefore applies no conversion: when the flag is absent the int
default `1` is used unchanged; when a value is supplied on the command line it
stays the raw string. -/
def parseEvalFrequency : Option String → PyVal
  | none => PyVal.pyInt 1
  | some s => PyVal.pyStr s

/-- Python 2 comparison semantics for the check
`self._checkpoints_since_eval > self._eval_every` (line 56) when the operands
may be mixed: CPython 2 orders objects of different numeric/non-numeric types
by type name, so every int is smaller than every str and `int > str` is always
False; same-type comparisons are the usual ones. -/
def py2Gt : PyVal → PyVal → Bool
  | PyVal.pyInt a, PyVal.pyInt b => decide (a > b)
  | PyVal.pyInt _, PyVal.pyStr _ => false
  | PyVal.pyStr _, PyVal.pyInt _ => true
  | PyVal.pyStr a, PyVal.pyStr b => decide (a > b)

/-- C5 (code bug): `--eval-frequency 5` is NOT parsed as an integer — the
parsed value is the string `"5"`, not the int `5` (only the absent-flag
default is an int).  Consequently the hook's threshold check
`checkpoints_since_eval > eval_frequency` is an int-vs-str comparison, which
in Python 2 is always False — e.g. a counter of 100 still does not exceed
`"5"` — so a command-line-supplied frequency disables periodic evaluation
entirely instead of acting as an integer threshold. -/
theorem eval_frequency_not_int :
    parseEvalFrequency (some "5") = PyVal.pyStr "5" ∧
    parseEvalFrequency (some "5") ≠ PyVal.pyInt 5 ∧
    parseEvalFrequency none = PyVal.pyInt 1 ∧
    py2Gt (PyVal.pyInt 100) (parseEvalFrequency (some "5")) = false ∧
    py2Gt (PyVal.pyInt 100) (PyVal.pyInt 5) = true := by
  refine ⟨rfl, ?_, rfl, rfl, by decide⟩
  intro h
  exact PyVal.noConfusion h

/-- Program locations of the hook callbacks as executed by background threads
of `MonitoredTrainingSession` (the comment at lines 41–43 is why the locks
exist).  `a…` locations belong to `after_run` (lines 49–60): `a0` before the
`_update_latest_checkpoint()` call, `a1` before `_eval_lock.acquire(False)`,
`a2` holding the lock before the counter check, `aEval` inside
`self._run_eval()`, `aRel` at the `finally` release, `aDone` returned.
`e…` locations belong to `end` (lines 73–78): `e0` before the update call,
`e1` before the blocking `with self._eval_lock:` acquire, `eEval` inside
`self._run_eval()`, `eRel` at the `with`-exit release, `eDone` returned. -/
inductive Loc
  | a0
  | a1
  | a2
  | aEval
  | aRel
  | aDone
  | e0
  | e1
  | eEval
  | eRel
  | eDone
deriving Repr, DecidableEq

/-- Locations at which a thread holds `_eval_lock`. -/
def holdsEvalLock : Loc → Bool
  | Loc.a2 => true
  | Loc.aEval => true
  | Loc.aRel => true
  | Loc.eEval => true
  | Loc.eRel => true
  | _ => false

/-- Locations at which a thread is inside an evaluation pass (`_run_eval`). -/
def inEvalRun : Loc → Bool
  | Loc.aEval => true
  | Loc.eEval => true
  | _ => false

/-- Shared state of the hook's threads: the holder of `_eval_lock` (`none`
when free) and each thread's current location.  (The checkpoint lock and the
counter are irrelevant to evaluation exclusion and are abstracted: the
data-dependent branch at line 56 appears as nondeterminism below.) -/
structure HookSystemState where
  evalLock : Option Nat
  threadAt : Nat → Loc

/-- Interleaving semantics of overlapping `after_run` and `end` callbacks.
`threading.Lock` semantics: `acquire(False)` succeeds only when the lock is
free and then records the holder, and fails (returning immediately) when held;
the blocking `with self._eval_lock:` acquire can fire only when the lock is
free (otherwise the thread waits); `release` frees the lock.  `checkTrue` /
`checkFalse` are the two outcomes of the `checkpoints_since_eval >
eval_frequency` test; `evalFinishA`/`evalFinishE` cover both normal return of
`_run_eval` and an exception (the `finally`/`with`-exit path is the same
release location). -/
inductive HookStep : HookSystemState → HookSystemState → Prop
  | updateA (c : HookSystemState) (t : Nat) (h : c.threadAt t = Loc.a0) :
      HookStep c ⟨c.evalLock, Function.update c.threadAt t Loc.a1⟩
  | tryAcquireFail (c : HookSystemState) (t u : Nat)
      (h : c.threadAt t = Loc.a1) (hl : c.evalLock = some u) :
      HookStep c ⟨c.evalLock, Function.update c.threadAt t Loc.aDone⟩
  | tryAcquireOk (c : HookSystemState) (t : Nat)
      (h : c.threadAt t = Loc.a1) (hl : c.evalLock = none) :
      HookStep c ⟨some t, Function.update c.threadAt t Loc.a2⟩
  | checkTrue (c : HookSystemState) (t : Nat) (h : c.threadAt t = Loc.a2) :
      HookStep c ⟨c.evalLock, Function.update c.threadAt t Loc.aEval⟩
  | checkFalse (c : HookSystemState) (t : Nat) (h : c.threadAt t = Loc.a2) :
      HookStep c ⟨c.evalLock, Function.update c.threadAt t Loc.aRel⟩
  | evalFinishA (c : HookSystemState) (t : Nat) (h : c.threadAt t = Loc.aEval) :
      HookStep c ⟨c.evalLock, Function.update c.threadAt t Loc.aRel⟩
  | releaseA (c : HookSystemState) (t : Nat) (h : c.threadAt t = Loc.aRel) :
      HookStep c ⟨none, Function.update c.threadAt t Loc.aDone⟩
  | updateE (c : HookSystemState) (t : Nat) (h : c.threadAt t = Loc.e0) :
      HookStep c ⟨c.evalLock, Function.update c.threadAt t Loc.e1⟩
  | blockAcquire (c : HookSystemState) (t : Nat)
      (h : c.threadAt t = Loc.e1) (hl : c.evalLock = none) :
      HookStep c ⟨some t, Function.update c.threadAt t Loc.eEval⟩
  | evalFinishE (c : HookSystemState) (t : Nat) (h : c.threadAt t = Loc.eEval) :
      HookStep c ⟨c.evalLock, Function.update c.threadAt t Loc.eRel⟩
  | releaseE (c : HookSystemState) (t : Nat) (h : c.threadAt t = Loc.eRel) :
      HookStep c ⟨none, Function.update c.threadAt t Loc.eDone⟩

/-- Initial configurations: the lock is free and every thread is at the entry
of `after_run` or of `end`. -/
def InitConfig (c : HookSystemState) : Prop :=
  c.evalLock = none ∧ ∀ t, c.threadAt t = Loc.a0 ∨ c.threadAt t = Loc.e0

/-- Lock-ownership invariant: any thread at a lock-holding location is the
recorded holder of `_eval_lock`. -/
def LockInv (c : HookSystemState) : Prop :=
  ∀ t, holdsEvalLock (c.threadAt t) = true → c.evalLock = some t

lemma lockInv_init (c : HookSystemState) (h : InitConfig c) : LockInv c := by
  intro t ht
  rcases h.2 t with h0 | h0 <;> rw [h0] at ht <;> simp [holdsEvalLock] at ht

lemma lockInv_step {c c' : HookSystemState} (hstep : HookStep c c')
    (hinv : LockInv c) : LockInv c' := by
  cases hstep with
  | updateA t h =>
    intro u hu
    simp only [Function.update_apply] at hu ⊢
    by_cases hut : u = t
    · subst hut; rw [if_pos rfl] at hu; simp [holdsEvalLock] at hu
    · rw [if_neg hut] at hu; exact hinv u hu
  | tryAcquireFail t v h hl =>
    intro u hu
    simp only [Function.update_apply] at hu ⊢
    by_cases hut : u = t
    · subst hut; rw [if_pos rfl] at hu; simp [holdsEvalLock] at hu
    · rw [if_neg hut] at hu; exact hinv u hu
  | tryAcquireOk t h hl =>
    intro u hu
    simp only [Function.update_apply] at hu ⊢
    by_cases hut : u = t
    · subst hut; rfl
    · rw [if_neg hut] at hu
      exact absurd (hl ▸ hinv u hu) (by simp)
  | checkTrue t h =>
    intro u hu
    simp only [Function.update_apply] at hu ⊢
    by_cases hut : u = t
    · subst hut; exact hinv u (by rw [h]; rfl)
    · rw [if_neg hut] at hu; exact hinv u hu
  | checkFalse t h =>
    intro u hu
    simp only [Function.update_apply] at hu ⊢
    by_cases hut : u = t
    · subst hut; exact hinv u (by rw [h]; rfl)
    · rw [if_neg hut] at hu; exact hinv u hu
  | evalFinishA t h =>
    intro u hu
    simp only [Function.update_apply] at hu ⊢
    by_cases hut : u = t
    · subst hut; exact hinv u (by rw [h]; rfl)
    · rw [if_neg hut] at hu; exact hinv u hu
  | releaseA t h =>
    intro u hu
    simp only [Function.update_apply] at hu ⊢
    by_cases hut : u = t
    · subst hut; rw [if_pos rfl] at hu; simp [holdsEvalLock] at hu
    · rw [if_neg hut] at hu
      have h1 : c.evalLock = some u := hinv u hu
      have h2 : c.evalLock = some t := hinv t (by rw [h]; rfl)
      rw [h1] at h2
      exact absurd (Option.some.inj h2) hut
  | updateE t h =>
    intro u hu
    simp only [Function.update_apply] at hu ⊢
    by_cases hut : u = t
    · subst hut; rw [if_pos rfl] at hu; simp [holdsEvalLock] at hu
    · rw [if_neg hut] at hu; exact hinv u hu
  | blockAcquire t h hl =>
    intro u hu
    simp only [Function.update_apply] at hu ⊢
    by_cases hut : u = t
    · subst hut; rfl
    · rw [if_neg hut] at hu
      exact absurd (hl ▸ hinv u hu) (by simp)
  | evalFinishE t h =>
    intro u hu
    simp only [Function.update_apply] at hu ⊢
    by_cases hut : u = t
    · subst hut; exact hinv u (by rw [h]; rfl)
    · rw [if_neg hut] at hu; exact hinv u hu
  | releaseE t h =>
    intro u hu
    simp only [Function.update_apply] at hu ⊢
    by_cases hut : u = t
    · subst hut; rw [if_pos rfl] at hu; simp [holdsEvalLock] at hu
    · rw [if_neg hut] at hu
      have h1 : c.evalLock = some u := hinv u hu
      have h2 : c.evalLock = some t := hinv t (by rw [h]; rfl)
      rw [h1] at h2
      exact absurd (Option.some.inj h2) hut

lemma lockInv_reachable {c0 c : HookSystemState} (hinit : InitConfig c0)
    (hreach : Relation.ReflTransGen HookStep c0 c) : LockInv c := by
  induction hreach with
  | refl => exact lockInv_init c0 hinit
  | tail hsteps hstep ih => exact lockInv_step hstep ih

lemma inEvalRun_holds {l : Loc} (h : inEvalRun l = true) :
    holdsEvalLock l = true := by
  cases l <;> revert h <;> decide

/-- C9: at most one evaluation pass is in progress at any time.  For every
interleaving of overlapping `after_run` callbacks and the `end` callback
starting from a free lock, any two threads that are simultaneously inside
`_run_eval` are the same thread: acquisition of the single `_eval_lock`
serializes all evaluation invocations across both the periodic
(try-acquire) and the final (blocking-acquire) code paths. -/
theorem eval_mutual_exclusion (c0 c : HookSystemState) (hinit : InitConfig c0)
    (hreach : Relation.ReflTransGen HookStep c0 c) (t1 t2 : Nat)
    (h1 : inEvalRun (c.threadAt t1) = true)
    (h2 : inEvalRun (c.threadAt t2) = true) :
    t1 = t2 := by
  have hinv := lockInv_reachable hinit hreach
  have e1 : c.evalLock = some t1 := hinv t1 (inEvalRun_holds h1)
  have e2 : c.evalLock = some t2 := hinv t2 (inEvalRun_holds h2)
  rw [e1] at e2
  exact Option.some.inj e2

/-- Concrete instance of `eval_mutual_exclusion`: from an all-`end` initial
configuration, thread 0 takes the update step and the blocking acquire,
reaching a configuration where it is inside `_run_eval`; the theorem applied
there with `t1 = t2 = 0` discharges all hypotheses. -/
theorem eval_mutual_exclusion_witness :
    inEvalRun ((Function.update (Function.update (fun _ => Loc.e0) 0 Loc.e1) 0
      Loc.eEval) 0) = true ∧ (0 : Nat) = 0 :=
  ⟨rfl,
    eval_mutual_exclusion ⟨none, fun _ => Loc.e0⟩
      ⟨some 0, Function.update (Function.update (fun _ => Loc.e0) 0 Loc.e1) 0
        Loc.eEval⟩
      ⟨rfl, fun _ => Or.inr rfl⟩
      (Relation.ReflTransGen.tail
        (Relation.ReflTransGen.tail Relation.ReflTransGen.refl
          (HookStep.updateE ⟨none, fun _ => Loc.e0⟩ 0 rfl))
        (HookStep.blockAcquire
          ⟨none, Function.update (fun _ => Loc.e0) 0 Loc.e1⟩ 0 rfl rfl))
      0 0 rfl rfl⟩
